import Mathlib

/-!
Verification of the `acp` kernel (agentic-control-plane-kit, `src/kernel-py/acp/`)
against its natural-language specification.

Shallow embedding of:
  * `acp/types.py`  — `ERROR_CODES`, `ActionDef`, `ImpactShape`, `AuditEntry`;
  * `acp/usage.py`  — `UsageResponse` (with `__post_init__`), `UpgradeRequiredError`,
    `enforce_usage_limit`;
  * `acp/router.py` — `create_manage_router` (the file is an explicit unimplemented
    placeholder, so the router pipeline is modelled from the spec).

Python `int` is embedded as `Int` (unbounded), Python `str` as `String`,
`None`-able values as `Option`, and exceptions as `Except` with an explicit
exception datatype distinguishing `UpgradeRequiredError` from every other
exception (mirroring the `except UpgradeRequiredError: raise` /
`except Exception: return None` clauses).  The wall clock used by
`enforce_usage_limit` to compute the current billing period is abstracted
into two explicit string parameters `period_start`, `period_end`.
-/

/-- `ERROR_CODES` from `acp/types.py` (lines 59–68), verbatim: the list the
code actually declares.  Note it has eight entries. -/
def ERROR_CODES : List String :=
  ["VALIDATION_ERROR",
   "INVALID_API_KEY",
   "SCOPE_DENIED",
   "NOT_FOUND",
   "RATE_LIMITED",
   "CEILING_EXCEEDED",
   "IDEMPOTENT_REPLAY",
   "INTERNAL_ERROR"]

/-- The closed ErrorCode set exactly as the spec names it (spec §3):
nine codes, including `UPGRADE_REQUIRED`.  This definition follows the
spec's words, to be compared with `ERROR_CODES` from the source. -/
def spec_error_code_set : List String :=
  ["VALIDATION_ERROR",
   "INVALID_API_KEY",
   "SCOPE_DENIED",
   "NOT_FOUND",
   "RATE_LIMITED",
   "CEILING_EXCEEDED",
   "IDEMPOTENT_REPLAY",
   "UPGRADE_REQUIRED",
   "INTERNAL_ERROR"]

/-- `UsageResponse` dataclass from `acp/usage.py` (lines 29–42).
`calls_remaining` is `Optional[int]` defaulting to `None`; the dataclass
`__init__` stores the supplied fields and then `__post_init__` runs
(see `UsageResponse.post_init`). -/
structure UsageResponse where
  tenant_id : String
  tier : String
  calls_used : Int
  calls_limit : Int
  period_start : String
  period_end : String
  calls_remaining : Option Int
deriving DecidableEq, Repr

/-- `UsageResponse.__post_init__` from `acp/usage.py` (lines 40–42):
if `calls_remaining is None`, set it to `max(0, calls_limit - calls_used)`;
otherwise leave the supplied value untouched. -/
def UsageResponse.post_init (u : UsageResponse) : UsageResponse :=
  if u.calls_remaining = none then
    { u with calls_remaining := some (max 0 (u.calls_limit - u.calls_used)) }
  else u

/-- Constructing a `UsageResponse` in Python: the dataclass `__init__`
followed by `__post_init__`.  Passing `calls_remaining = none` models the
caller omitting the argument (its default). -/
def mkUsageResponse (tenant_id tier : String) (calls_used calls_limit : Int)
    (period_start period_end : String) (calls_remaining : Option Int) :
    UsageResponse :=
  UsageResponse.post_init
    { tenant_id := tenant_id, tier := tier, calls_used := calls_used,
      calls_limit := calls_limit, period_start := period_start,
      period_end := period_end, calls_remaining := calls_remaining }

/-- Exceptions that can cross the `try` block of `enforce_usage_limit`:
either an `UpgradeRequiredError` (from `acp/usage.py` lines 45–51, carrying
`message`, `usage`, `upgrade_url`) or any other Python exception, carried
with its message.  The distinction matters because the code re-raises the
former and swallows the latter. -/
inductive UsageExc where
  | upgradeRequired (message : String) (usage : UsageResponse) (upgrade_url : String)
  | other (message : String)
deriving DecidableEq, Repr

/-- The control-plane adapter as `enforce_usage_limit` sees it: an object
whose `get_usage(tenant_id, period_start, period_end)` method may be absent
(the code probes for it with `hasattr`), and which may raise.  `none` for
`get_usage` models `hasattr(control_plane, 'get_usage')` being false. -/
structure ControlPlane where
  get_usage : Option (String → String → String → Except UsageExc UsageResponse)

/-- The nested `usage` dict of the warning returned by `enforce_usage_limit`
(`acp/usage.py` lines 116–121). -/
structure WarningUsage where
  calls_used : Int
  calls_limit : Int
  calls_remaining : Int
  tier : String
deriving DecidableEq, Repr

/-- The warning dict returned by `enforce_usage_limit` when a free-tier
tenant approaches its limit (`acp/usage.py` lines 113–122). -/
structure Warning where
  message : String
  upgrade_url : String
  usage : WarningUsage
deriving DecidableEq, Repr

/-- The f-string at `acp/usage.py` line 102 and 112. -/
def upgrade_url_for (tenant_uuid : String) : String :=
  "/api/upgrade/checkout?tenant=" ++ tenant_uuid

/-- The f-string at `acp/usage.py` line 104. -/
def upgrade_message (calls_limit : Int) : String :=
  "Free tier limit reached (" ++ toString calls_limit ++
    " calls). Add a payment method to continue."

/-- The f-string at `acp/usage.py` line 114. -/
def warning_message (calls_remaining calls_limit : Int) : String :=
  "You have " ++ toString calls_remaining ++
    " free calls remaining. Add a payment method to continue after " ++
    toString calls_limit ++ " calls."

/-- `enforce_usage_limit` from `acp/usage.py` (lines 54–130), embedded.

Result: `.ok none` for "no warning", `.ok (some w)` for a returned warning
dict, `.error e` for a raised exception.  Faithful points:
  * `not tenant_uuid or not control_plane` — empty string and `None` are
    the falsy cases of the actual argument types, so the guard is
    `tenant_uuid = "" ∨ control_plane = none`;
  * `hasattr(control_plane, 'get_usage')` — the `Option` field;
  * the limit check reads `usage.calls_limit`, not the `free_tier_limit`
    parameter (which the body never uses);
  * the `try/except` ladder: an `UpgradeRequiredError` — whether raised by
    the governor's own limit check or by `get_usage` itself — is re-raised;
    every other exception is swallowed and `None` is returned (fail open). -/
def enforce_usage_limit (tenant_uuid action : String)
    (control_plane : Option ControlPlane)
    (bindings : List (String × String))
    (free_tier_limit warning_threshold : Int)
    (period_start period_end : String) :
    Except UsageExc (Option Warning) :=
  if tenant_uuid = "" then .ok none
  else
    match control_plane with
    | none => .ok none
    | some cp =>
      match cp.get_usage with
      | none => .ok none
      | some gu =>
        match gu tenant_uuid period_start period_end with
        | .error (.upgradeRequired m u url) => .error (.upgradeRequired m u url)
        | .error (.other _) => .ok none
        | .ok usage =>
          if usage.tier = "free" ∧ usage.calls_limit ≤ usage.calls_used then
            .error (.upgradeRequired (upgrade_message usage.calls_limit) usage
              (upgrade_url_for tenant_uuid))
          else if usage.tier = "free" ∧ warning_threshold ≤ usage.calls_used then
            .ok (some
              { message := warning_message (usage.calls_limit - usage.calls_used)
                  usage.calls_limit,
                upgrade_url := upgrade_url_for tenant_uuid,
                usage :=
                  { calls_used := usage.calls_used,
                    calls_limit := usage.calls_limit,
                    calls_remaining := usage.calls_limit - usage.calls_used,
                    tier := usage.tier } })
          else .ok none

/-! ## Type layer (`acp/types.py`) beyond the error codes -/

/-- `ActionDef` dataclass from `acp/types.py` (lines 15–22).  `params_schema`
is a `Dict[str, Any]` JSON schema in Python; the spec (§4.1) asks only for
type/required-field checks, so it is embedded as the list of required
parameter names. -/
structure ActionDef where
  name : String
  scope : String
  description : String
  params_schema : List String
  supports_dry_run : Bool

/-- `ImpactShape` dataclass from `acp/types.py` (lines 25–35).  A structured
change descriptor (`Dict[str, Any]`) is embedded as an association list;
Python's `float` cost is embedded as a rational. -/
structure ImpactShape where
  creates : List (List (String × String))
  updates : List (List (String × String))
  deletes : List (List (String × String))
  side_effects : List (List (String × String))
  risk : String
  warnings : List String
  estimated_cost : Option ℚ
  requires_approval : Option Bool

/-- `AuditEntry` dataclass from `acp/types.py` (lines 38–55); `Any`-typed
snapshots are embedded as strings. -/
structure AuditEntry where
  tenant_id : String
  actor_type : String
  actor_id : String
  action : String
  request_id : String
  result : String
  dry_run : Bool
  api_key_id : Option String
  payload_hash : Option String
  before_snapshot : Option String
  after_snapshot : Option String
  impact : Option ImpactShape
  error_message : Option String
  ip_address : Option String
  idempotency_key : Option String

/-! ## Router pipeline, modelled from the spec

`acp/router.py` declares `create_manage_router` but its body is an explicit
unimplemented placeholder (`raise NotImplementedError`, "kernel-py is a
skeleton").  The definitions below therefore model the missing router
pipeline from the spec (§2 control flow, §4.1–4.9, §6), keeping the
placeholder's parameter names. -/

/-- Modelled from the spec: the resolved credential the Credential/DB
adapter returns (§6: "resolve a credential to (tenant_id, actor_type,
actor_id, granted_scopes)"). -/
structure Credential where
  tenant_id : String
  actor_type : String
  actor_id : String
  granted_scopes : List String

/-- Modelled from the spec: `ManageRequest` envelope (§3), declared in
`acp/types.py` only as an untyped `Dict[str, Any]` alias. -/
structure ManageRequest where
  action : String
  params : List (String × String)
  idempotency_key : Option String
  dry_run : Bool

/-- Modelled from the spec: the request metadata accompanying a
`ManageRequest` (§6: "caller IP, resolved credential reference"); the
kernel-assigned `request_id` of the response envelope is carried here too. -/
structure RequestMeta where
  caller_ip : String
  credential_ref : String
  request_id : String

/-- Modelled from the spec: `ManageResponse` envelope (§3), declared in
`acp/types.py` only as an untyped `Dict[str, Any]` alias.  `warning` is the
non-blocking usage warning the spec attaches to success responses (§4.6). -/
structure ManageResponse where
  ok : Bool
  request_id : String
  data : Option String
  error : Option String
  code : Option String
  impact : Option ImpactShape
  warning : Option Warning

/-- Modelled from the spec: a stored response held by the idempotency
adapter (§6: `claim(tenant_id, key) -> {claimed, or existing stored
response}`). -/
structure StoredResponse where
  ok : Bool
  data : Option String
  error : Option String
  code : Option String

/-- Modelled from the spec: one `(ActionDef, handler, optional dry-run
impact function)` triple supplied by a pack (§6).  A handler either returns
the success `data` value or raises, embedded as `Except`. -/
structure PackEntry where
  definition : ActionDef
  handler : List (String × String) → Credential → Except String String
  dry_run_impact : Option (List (String × String) → Credential → ImpactShape)

/-- Modelled from the spec: dispatch-by-name over the union of all installed
packs (§4.7). -/
def lookup_action (packs : List (List PackEntry)) (name : String) :
    Option PackEntry :=
  packs.flatten.find? (fun e => e.definition.name == name)

/-- Modelled from the spec: structural validation of `params` against the
action's declared schema — required-field checks (§4.1). -/
def validate_params (schema : List String)
    (params : List (String × String)) : Bool :=
  schema.all (fun k => (params.lookup k).isSome)

/-- An `ok=false` response envelope carrying exactly one error code. -/
def err_response (request_id code error_message : String) : ManageResponse :=
  { ok := false, request_id := request_id, data := none,
    error := some error_message, code := some code, impact := none,
    warning := none }

/-- Modelled from the spec: replaying a stored response under
`IDEMPOTENT_REPLAY` semantics (§4.3): the payload is the original
`ok`/`data`/`error`; the replay code is reflected in the metadata of a
failed original, while a successful original replays as plain success. -/
def replay_response (request_id : String) (s : StoredResponse) :
    ManageResponse :=
  { ok := s.ok, request_id := request_id, data := s.data, error := s.error,
    code := if s.ok then none else some "IDEMPOTENT_REPLAY", impact := none,
    warning := none }

/-- Modelled from the spec: `create_manage_router` (§6 boundary, §4.9
pipeline).  `acp/router.py` only declares this function and raises
`NotImplementedError`.  Parameters keep the placeholder's names; the
optional usage/control-plane adapter of §6, absent from the placeholder
signature, is added as an explicit optional parameter, and the usage stage
runs the real embedded `enforce_usage_limit` with its default
`free_tier_limit = 100`, `warning_threshold = 90`.  Pipeline order follows
§2 (validation → authorization → idempotency → rate → ceiling → usage →
dispatch), with the action looked up first because schema validation and
scope authorization both need the `ActionDef`; the audit write happens on
every exit path (§4.8) and its failure never replaces the response. -/
def create_manage_router
    (db_adapter : String → Option Credential)
    (audit_adapter : AuditEntry → Bool)
    (idempotency_adapter : String → String → Option StoredResponse)
    (rate_limit_adapter : String → String → Bool)
    (ceilings_adapter : String → String → List (String × String) → Bool)
    (bindings : List (String × String))
    (packs : List (List PackEntry))
    (control_plane : Option ControlPlane) :
    ManageRequest → RequestMeta → ManageResponse :=
  fun req meta =>
    let rid := meta.request_id
    let resp : ManageResponse :=
      match db_adapter meta.credential_ref with
      | none => err_response rid "INVALID_API_KEY"
          "credential could not be resolved"
      | some cred =>
        match lookup_action packs req.action with
        | none => err_response rid "NOT_FOUND"
            ("unknown action: " ++ req.action)
        | some entry =>
          if ¬ validate_params entry.definition.params_schema req.params then
            err_response rid "VALIDATION_ERROR"
              "params failed schema validation"
          else if ¬ cred.granted_scopes.contains entry.definition.scope then
            err_response rid "SCOPE_DENIED"
              ("missing scope: " ++ entry.definition.scope)
          else
            match if req.dry_run then none
                  else req.idempotency_key.bind
                    (fun k => idempotency_adapter cred.tenant_id k) with
            | some stored => replay_response rid stored
            | none =>
              if ¬ rate_limit_adapter cred.tenant_id req.action then
                err_response rid "RATE_LIMITED" "rate limit exceeded"
              else if ¬ ceilings_adapter cred.tenant_id req.action req.params then
                err_response rid "CEILING_EXCEEDED" "resource ceiling exceeded"
              else
                match if req.dry_run then Except.ok none
                      else enforce_usage_limit cred.tenant_id req.action
                        control_plane bindings 100 90 "" "" with
                | .error e =>
                  match e with
                  | .upgradeRequired m _ _ =>
                    err_response rid "UPGRADE_REQUIRED" m
                  | .other m => err_response rid "UPGRADE_REQUIRED" m
                | .ok w =>
                  if req.dry_run then
                    if ¬ entry.definition.supports_dry_run then
                      err_response rid "VALIDATION_ERROR"
                        "action does not support dry_run"
                    else
                      match entry.dry_run_impact with
                      | none => err_response rid "VALIDATION_ERROR"
                          "action does not support dry_run"
                      | some f =>
                        { ok := true, request_id := rid, data := none,
                          error := none, code := none,
                          impact := some (f req.params cred), warning := w }
                  else
                    match entry.handler req.params cred with
                    | .error _ => err_response rid "INTERNAL_ERROR"
                        "internal error"
                    | .ok d =>
                      { ok := true, request_id := rid, data := some d,
                        error := none, code := none, impact := none,
                        warning := w }
    let audit_outcome := audit_adapter
      { tenant_id := "", actor_type := "api_key", actor_id := "",
        action := req.action, request_id := rid,
        result := if resp.ok then "success" else "error",
        dry_run := req.dry_run, api_key_id := none, payload_hash := none,
        before_snapshot := none, after_snapshot := none, impact := none,
        error_message := resp.error, ip_address := some meta.caller_ip,
        idempotency_key := req.idempotency_key }
    let _ := audit_outcome
    resp

/-- The spec's response-envelope invariant (§3): `ok=true` carries no error
code; `ok=false` carries exactly one code drawn from the closed ErrorCode
set. -/
def well_formed_envelope (r : ManageResponse) : Bool :=
  if r.ok then r.code == none
  else
    match r.code with
    | some c => spec_error_code_set.contains c
    | none => false

/-! ## Concrete fixtures used by witnesses and counterexamples -/

/-- A free-tier tenant exactly at its limit (100 of 100 calls used). -/
def usage_free_100 : UsageResponse :=
  mkUsageResponse "t" "free" 100 100 "2025-01-01T00:00:00" "2025-01-15T00:00:00" none

/-- A free-tier tenant close to its limit (95 of 100 calls used). -/
def usage_free_95 : UsageResponse :=
  mkUsageResponse "t" "free" 95 100 "2025-01-01T00:00:00" "2025-01-15T00:00:00" none

/-- A paid-tier tenant far beyond the free limit. -/
def usage_paid_1000 : UsageResponse :=
  mkUsageResponse "t" "paid" 1000 100 "2025-01-01T00:00:00" "2025-01-15T00:00:00" none

/-- A `get_usage` backend reporting `usage_free_100`. -/
def gu_free_100 : String → String → String → Except UsageExc UsageResponse :=
  fun _ _ _ => .ok usage_free_100

/-- A `get_usage` backend reporting `usage_free_95`. -/
def gu_free_95 : String → String → String → Except UsageExc UsageResponse :=
  fun _ _ _ => .ok usage_free_95

/-- A `get_usage` backend reporting `usage_paid_1000`. -/
def gu_paid_1000 : String → String → String → Except UsageExc UsageResponse :=
  fun _ _ _ => .ok usage_paid_1000

/-- A `get_usage` backend that itself raises an `UpgradeRequiredError`. -/
def gu_raises_upgrade : String → String → String → Except UsageExc UsageResponse :=
  fun _ _ _ => .error (.upgradeRequired "backend raised upgrade" usage_free_100 "/u")

/-- A `get_usage` backend that raises an ordinary exception (timeout, etc.). -/
def gu_raises_other : String → String → String → Except UsageExc UsageResponse :=
  fun _ _ _ => .error (.other "connection timeout")

/-- A control plane with no `get_usage` capability (`hasattr` is false). -/
def cp_without_usage : ControlPlane := ⟨none⟩

/-- The warning `enforce_usage_limit` produces for `usage_free_95`. -/
def warning_for_95 : Warning :=
  { message := warning_message 5 100, upgrade_url := upgrade_url_for "t",
    usage := { calls_used := 95, calls_limit := 100, calls_remaining := 5,
               tier := "free" } }

/-! ## Theorems -/

/-- C1: the claim says `ERROR_CODES` is exactly the spec's closed nine-code
set; in fact the spec set contains `UPGRADE_REQUIRED` but the `ERROR_CODES`
list declared in `acp/types.py` omits it (eight entries), even though
`acp/usage.py`'s own documented usage pattern returns
`code = "UPGRADE_REQUIRED"`. -/
theorem error_codes_missing_upgrade_required :
    "UPGRADE_REQUIRED" ∈ spec_error_code_set ∧
      "UPGRADE_REQUIRED" ∉ ERROR_CODES := by
  decide

/-- C6 (counterexample): a `UsageResponse` constructed with an explicit
`calls_remaining = 7` keeps that value even though
`max 0 (calls_limit - calls_used) = 9`, so not every construction satisfies
the derived-field equation. -/
theorem usage_response_explicit_remaining_kept :
    (mkUsageResponse "t" "free" 1 10 "s" "e" (some 7)).calls_remaining ≠
      some (max 0 (10 - 1)) := by
  decide

/-- C6 (amended): every `UsageResponse` constructed with `calls_remaining`
omitted (its `None` default) satisfies
`calls_remaining = max(0, calls_limit - calls_used)`. -/
theorem usage_response_derives_remaining_when_omitted
    (tenant_id tier : String) (calls_used calls_limit : Int)
    (period_start period_end : String) :
    (mkUsageResponse tenant_id tier calls_used calls_limit period_start
        period_end none).calls_remaining =
      some (max 0 (calls_limit - calls_used)) := by
  simp [mkUsageResponse, UsageResponse.post_init]

/-- C3: when the usage query succeeds, `enforce_usage_limit` raises
`UpgradeRequiredError` if and only if the returned usage has tier `free`
and `calls_used ≥ calls_limit`; and in that case the raised error carries
the upgrade URL for the tenant and the current `UsageResponse`. -/
theorem enforce_usage_limit_blocks_iff_free_limit_reached
    (tenant_uuid action : String) (hne : tenant_uuid ≠ "")
    (gu : String → String → String → Except UsageExc UsageResponse)
    (bindings : List (String × String))
    (free_tier_limit warning_threshold : Int)
    (period_start period_end : String) (usage : UsageResponse)
    (hq : gu tenant_uuid period_start period_end = .ok usage) :
    ((∃ e, enforce_usage_limit tenant_uuid action (some ⟨some gu⟩) bindings
        free_tier_limit warning_threshold period_start period_end =
          .error e) ↔
      usage.tier = "free" ∧ usage.calls_limit ≤ usage.calls_used) ∧
    (usage.tier = "free" ∧ usage.calls_limit ≤ usage.calls_used →
      enforce_usage_limit tenant_uuid action (some ⟨some gu⟩) bindings
        free_tier_limit warning_threshold period_start period_end =
        .error (.upgradeRequired (upgrade_message usage.calls_limit) usage
          (upgrade_url_for tenant_uuid))) := by
  unfold enforce_usage_limit
  simp only [hne, if_false, hq]
  refine ⟨⟨?_, ?_⟩, ?_⟩
  · rintro ⟨e, he⟩
    by_cases hc : usage.tier = "free" ∧ usage.calls_limit ≤ usage.calls_used
    · exact hc
    · exfalso
      by_cases htf : usage.tier = "free"
      · have hlt : ¬ usage.calls_limit ≤ usage.calls_used :=
          fun hx => hc ⟨htf, hx⟩
        by_cases hw : warning_threshold ≤ usage.calls_used <;>
          simp [htf, hlt, hw] at he
      · simp [htf] at he
  · intro hc
    exact ⟨.upgradeRequired (upgrade_message usage.calls_limit) usage
      (upgrade_url_for tenant_uuid), by simp [hc]⟩
  · intro hc
    simp [hc]

/-- C3 witness: a free-tier tenant at 100 of 100 calls is blocked with the
upgrade URL and the usage attached. -/
theorem enforce_usage_limit_blocks_iff_free_limit_reached_witness :
    ("t" ≠ "") ∧
    gu_free_100 "t" "2025-01-01" "2025-01-15" = .ok usage_free_100 ∧
    (usage_free_100.tier = "free" ∧
      usage_free_100.calls_limit ≤ usage_free_100.calls_used) ∧
    enforce_usage_limit "t" "deploy" (some ⟨some gu_free_100⟩) [] 100 90
        "2025-01-01" "2025-01-15" =
      .error (.upgradeRequired (upgrade_message usage_free_100.calls_limit)
        usage_free_100 (upgrade_url_for "t")) :=
  ⟨by decide, rfl, by decide,
    (enforce_usage_limit_blocks_iff_free_limit_reached "t" "deploy"
      (by decide) gu_free_100 [] 100 90 "2025-01-01" "2025-01-15"
      usage_free_100 rfl).2 (by decide)⟩

/-- C4: when the usage query succeeds with tier `free` and
`warning_threshold ≤ calls_used < calls_limit`, `enforce_usage_limit` does
not block: it returns the warning dict, whose nested usage reports
`calls_remaining = calls_limit - calls_used`. -/
theorem enforce_usage_limit_warns_near_limit
    (tenant_uuid action : String) (hne : tenant_uuid ≠ "")
    (gu : String → String → String → Except UsageExc UsageResponse)
    (bindings : List (String × String))
    (free_tier_limit warning_threshold : Int)
    (period_start period_end : String) (usage : UsageResponse)
    (hq : gu tenant_uuid period_start period_end = .ok usage)
    (htier : usage.tier = "free")
    (hw : warning_threshold ≤ usage.calls_used)
    (hl : usage.calls_used < usage.calls_limit) :
    enforce_usage_limit tenant_uuid action (some ⟨some gu⟩) bindings
        free_tier_limit warning_threshold period_start period_end =
      .ok (some
        { message := warning_message (usage.calls_limit - usage.calls_used)
            usage.calls_limit,
          upgrade_url := upgrade_url_for tenant_uuid,
          usage :=
            { calls_used := usage.calls_used,
              calls_limit := usage.calls_limit,
              calls_remaining := usage.calls_limit - usage.calls_used,
              tier := usage.tier } }) := by
  have hnb : ¬ (usage.tier = "free" ∧ usage.calls_limit ≤ usage.calls_used) := by
    rintro ⟨-, hc⟩
    omega
  unfold enforce_usage_limit
  simp [hne, hq, hnb, htier, hw]
  omega

/-- C4 witness: with `tier=free, calls_limit=100, calls_used=95` the request
is not blocked and the warning reports `calls_remaining = 5`. -/
theorem enforce_usage_limit_warns_near_limit_witness :
    ("t" ≠ "") ∧
    gu_free_95 "t" "2025-01-01" "2025-01-15" = .ok usage_free_95 ∧
    usage_free_95.tier = "free" ∧
    (90 : Int) ≤ usage_free_95.calls_used ∧
    usage_free_95.calls_used < usage_free_95.calls_limit ∧
    enforce_usage_limit "t" "deploy" (some ⟨some gu_free_95⟩) [] 100 90
        "2025-01-01" "2025-01-15" =
      .ok (some
        { message := warning_message
            (usage_free_95.calls_limit - usage_free_95.calls_used)
            usage_free_95.calls_limit,
          upgrade_url := upgrade_url_for "t",
          usage :=
            { calls_used := usage_free_95.calls_used,
              calls_limit := usage_free_95.calls_limit,
              calls_remaining :=
                usage_free_95.calls_limit - usage_free_95.calls_used,
              tier := usage_free_95.tier } }) ∧
    usage_free_95.calls_limit - usage_free_95.calls_used = 5 :=
  ⟨by decide, rfl, by decide, by decide, by decide,
    enforce_usage_limit_warns_near_limit "t" "deploy" (by decide) gu_free_95
      [] 100 90 "2025-01-01" "2025-01-15" usage_free_95 rfl (by decide)
      (by decide) (by decide),
    by decide⟩

/-- C5 (counterexample): an `UpgradeRequiredError` raised by the backend's
`get_usage` itself is re-raised by the `except UpgradeRequiredError: raise`
clause, not swallowed — so not every exception raised by `get_usage` (other
than one from the governor's own limit check) is caught with `None`
returned. -/
theorem enforce_usage_limit_reraises_backend_upgrade_exc :
    enforce_usage_limit "t" "deploy" (some ⟨some gu_raises_upgrade⟩) [] 100
        90 "2025-01-01" "2025-01-15" =
      .error (.upgradeRequired "backend raised upgrade" usage_free_100
        "/u") ∧
    enforce_usage_limit "t" "deploy" (some ⟨some gu_raises_upgrade⟩) [] 100
        90 "2025-01-01" "2025-01-15" ≠ .ok none :=
  ⟨rfl, fun h => Except.noConfusion h⟩

/-- C5 (amended): every exception raised by `get_usage` that is not an
`UpgradeRequiredError` is caught and `enforce_usage_limit` returns `None`
(fail open), for every tenant and action. -/
theorem enforce_usage_limit_fails_open_on_other_exc
    (tenant_uuid action : String)
    (gu : String → String → String → Except UsageExc UsageResponse)
    (bindings : List (String × String))
    (free_tier_limit warning_threshold : Int)
    (period_start period_end : String) (m : String)
    (hq : gu tenant_uuid period_start period_end = .error (.other m)) :
    enforce_usage_limit tenant_uuid action (some ⟨some gu⟩) bindings
      free_tier_limit warning_threshold period_start period_end =
      .ok none := by
  unfold enforce_usage_limit
  by_cases hne : tenant_uuid = "" <;> simp [hne, hq]

/-- C5 witness: a backend timeout is swallowed and the request proceeds with
no warning and no error. -/
theorem enforce_usage_limit_fails_open_on_other_exc_witness :
    gu_raises_other "t" "2025-01-01" "2025-01-15" =
      .error (.other "connection timeout") ∧
    enforce_usage_limit "t" "deploy" (some ⟨some gu_raises_other⟩) [] 100 90
      "2025-01-01" "2025-01-15" = .ok none :=
  ⟨rfl,
    enforce_usage_limit_fails_open_on_other_exc "t" "deploy" gu_raises_other
      [] 100 90 "2025-01-01" "2025-01-15" "connection timeout" rfl⟩

/-- C10: when the usage query succeeds with a tier other than `free`,
`enforce_usage_limit` returns `None` — no exception and no warning —
regardless of how `calls_used` compares to `calls_limit`. -/
theorem enforce_usage_limit_ignores_paid_tier
    (tenant_uuid action : String)
    (gu : String → String → String → Except UsageExc UsageResponse)
    (bindings : List (String × String))
    (free_tier_limit warning_threshold : Int)
    (period_start period_end : String) (usage : UsageResponse)
    (hq : gu tenant_uuid period_start period_end = .ok usage)
    (htier : usage.tier ≠ "free") :
    enforce_usage_limit tenant_uuid action (some ⟨some gu⟩) bindings
      free_tier_limit warning_threshold period_start period_end =
      .ok none := by
  unfold enforce_usage_limit
  by_cases hne : tenant_uuid = "" <;> simp [hne, hq, htier]

/-- C10 witness: a paid tenant at 1000 of 100 calls is neither blocked nor
warned. -/
theorem enforce_usage_limit_ignores_paid_tier_witness :
    gu_paid_1000 "t" "2025-01-01" "2025-01-15" = .ok usage_paid_1000 ∧
    usage_paid_1000.tier ≠ "free" ∧
    enforce_usage_limit "t" "deploy" (some ⟨some gu_paid_1000⟩) [] 100 90
      "2025-01-01" "2025-01-15" = .ok none :=
  ⟨rfl, by decide,
    enforce_usage_limit_ignores_paid_tier "t" "deploy" gu_paid_1000 [] 100
      90 "2025-01-01" "2025-01-15" usage_paid_1000 rfl (by decide)⟩

/-- C7: when the control-plane reference is absent or it does not provide a
`get_usage` capability, the usage governor is a no-op: `enforce_usage_limit`
returns `None` without raising, for every tenant and action. -/
theorem enforce_usage_limit_noop_when_unconfigured
    (tenant_uuid action : String) (control_plane : Option ControlPlane)
    (bindings : List (String × String))
    (free_tier_limit warning_threshold : Int)
    (period_start period_end : String)
    (h : control_plane = none ∨
      ∃ c, control_plane = some c ∧ c.get_usage = none) :
    enforce_usage_limit tenant_uuid action control_plane bindings
      free_tier_limit warning_threshold period_start period_end =
      .ok none := by
  unfold enforce_usage_limit
  rcases h with rfl | ⟨c, rfl, hc⟩
  · by_cases hne : tenant_uuid = "" <;> simp [hne]
  · by_cases hne : tenant_uuid = "" <;> simp [hne, hc]

/-- C7 witness: with no control plane at all, the governor is a no-op. -/
theorem enforce_usage_limit_noop_when_unconfigured_witness :
    ((none : Option ControlPlane) = none ∨
      ∃ c, (none : Option ControlPlane) = some c ∧ c.get_usage = none) ∧
    enforce_usage_limit "tenant-1" "deploy" none [] 100 90 "2025-01-01"
      "2025-01-15" = .ok none :=
  ⟨Or.inl rfl,
    enforce_usage_limit_noop_when_unconfigured "tenant-1" "deploy" none []
      100 90 "2025-01-01" "2025-01-15" (Or.inl rfl)⟩

/-- C8: the outcome of a single `enforce_usage_limit` call flips with the
presence of the `get_usage` capability on the control plane passed to that
very call — the capability probe (`hasattr(control_plane, 'get_usage')`,
`acp/usage.py` line 84) sits inside the per-request path, not in any
configuration/startup phase (the function has no such phase: it receives
the raw adapter on every call). -/
theorem enforce_usage_limit_probes_capability_per_call :
    enforce_usage_limit "tenant-1" "deploy" (some cp_without_usage) [] 100
      90 "2025-01-01" "2025-01-15" = .ok none ∧
    enforce_usage_limit "tenant-1" "deploy" (some ⟨some gu_free_100⟩) [] 100
      90 "2025-01-01" "2025-01-15" ≠ .ok none :=
  ⟨rfl, fun h => Except.noConfusion h⟩

/-- C9: every warning returned by `enforce_usage_limit` reports a strictly
positive `calls_remaining` — the hard-block check precedes the warning
check, so the warning branch is reachable only with
`calls_used < calls_limit`. -/
theorem enforce_usage_limit_warning_remaining_positive
    (tenant_uuid action : String) (control_plane : Option ControlPlane)
    (bindings : List (String × String))
    (free_tier_limit warning_threshold : Int)
    (period_start period_end : String) (w : Warning)
    (h : enforce_usage_limit tenant_uuid action control_plane bindings
      free_tier_limit warning_threshold period_start period_end =
      .ok (some w)) :
    1 ≤ w.usage.calls_remaining := by
  unfold enforce_usage_limit at h
  split at h
  · simp at h
  · split at h
    · simp at h
    · split at h
      · simp at h
      · split at h
        · simp at h
        · simp at h
        · split at h
          · simp at h
          · split at h
            · rename_i usage hq hblock hwarn
              simp only [Except.ok.injEq, Option.some.injEq] at h
              subst h
              show 1 ≤ usage.calls_limit - usage.calls_used
              have hlt : ¬ usage.calls_limit ≤ usage.calls_used :=
                fun hx => hblock ⟨hwarn.1, hx⟩
              omega
            · simp at h

/-- C9 witness: the warning produced at 95 of 100 calls reports
`calls_remaining = 5 ≥ 1`. -/
theorem enforce_usage_limit_warning_remaining_positive_witness :
    enforce_usage_limit "t" "deploy" (some ⟨some gu_free_95⟩) [] 100 90
      "2025-01-01" "2025-01-15" = .ok (some warning_for_95) ∧
    1 ≤ warning_for_95.usage.calls_remaining :=
  ⟨rfl,
    enforce_usage_limit_warning_remaining_positive "t" "deploy"
      (some ⟨some gu_free_95⟩) [] 100 90 "2025-01-01" "2025-01-15"
      warning_for_95 rfl⟩

/-- Helper: an `err_response` with a code from the closed set is a
well-formed envelope. -/
theorem well_formed_err_response (request_id error_message c : String)
    (h : c ∈ spec_error_code_set) :
    well_formed_envelope (err_response request_id c error_message) = true := by
  simp [well_formed_envelope, err_response]
  exact h

/-- Helper: an idempotent replay of a stored response is a well-formed
envelope. -/
theorem well_formed_replay_response (request_id : String)
    (s : StoredResponse) :
    well_formed_envelope (replay_response request_id s) = true := by
  by_cases h : s.ok <;>
    simp [well_formed_envelope, replay_response, h, spec_error_code_set]

/-- C2: for every set of adapters, bindings and packs,
`create_manage_router` returns a router function which, applied to any
`ManageRequest` and request metadata, returns a `ManageResponse` envelope:
`ok=true` responses carry no error code, `ok=false` responses carry exactly
one code drawn from the closed ErrorCode set. -/
theorem create_manage_router_returns_envelope
    (db_adapter : String → Option Credential)
    (audit_adapter : AuditEntry → Bool)
    (idempotency_adapter : String → String → Option StoredResponse)
    (rate_limit_adapter : String → String → Bool)
    (ceilings_adapter : String → String → List (String × String) → Bool)
    (bindings : List (String × String))
    (packs : List (List PackEntry))
    (control_plane : Option ControlPlane)
    (req : ManageRequest) (meta : RequestMeta) :
    well_formed_envelope
      (create_manage_router db_adapter audit_adapter idempotency_adapter
        rate_limit_adapter ceilings_adapter bindings packs control_plane req
        meta) = true := by
  unfold create_manage_router
  simp only []
  repeat' split
  all_goals
    first
      | exact well_formed_err_response _ _ _ (by decide)
      | exact well_formed_replay_response _ _
      | simp [well_formed_envelope]
